import Mathlib

/-!
Shallow embedding of the Pac-Man multiplayer backend simulation core
(`src/server.js` / `src/index.js`): game state, input routing, player and
ghost movement, collision resolution, timers and win evaluation, together
with theorems checking the natural-language specification against it.

JavaScript numbers appearing as grid coordinates, deltas and timestamps
are modelled as `Int` (all arithmetic involved is exact integer
arithmetic); scores are `Nat` (only ever incremented); randomness
(`Math.random`) is modelled as an oracle argument supplying each ghost's
random choices for the tick.
-/

/-- Facing / movement direction ("up" / "down" / "left" / "right"). -/
inductive Dir where
  | up
  | down
  | left
  | right
deriving DecidableEq, Repr

/-- An integer grid coordinate `{x, y}`. -/
structure Pos where
  x : Int
  y : Int
deriving DecidableEq, Repr

/-- A player record, mirroring `gameState.player1` / `gameState.player2`. -/
structure Player where
  x : Int
  y : Int
  direction : Dir
  score : Nat
  lives : Int
  invulnerable : Bool
  invulnerableTime : Int
  name : String
deriving DecidableEq, Repr

/-- A ghost record; `originalColor` models the optional ad hoc
`ghost.originalColor` field (absent = `none`). The `speed` and `target`
fields of the source are never read by the simulation and are omitted. -/
structure Ghost where
  x : Int
  y : Int
  direction : Dir
  color : String
  originalColor : Option String
deriving DecidableEq, Repr

/-- Button flags of one directional input event `{up, down, left, right}`. -/
structure InputFlags where
  up : Bool
  down : Bool
  left : Bool
  right : Bool
deriving DecidableEq, Repr

/-- The mutable `gameState` aggregate. -/
structure GameState where
  player1 : Player
  player2 : Player
  dots : List Pos
  powerPellets : List Pos
  ghosts : List Ghost
  gameOver : Bool
  winner : Option String
  powerMode : Bool
  powerModeTime : Int
deriving DecidableEq, Repr

/-- The fixed 31×28 `MAZE_LAYOUT` constant (1 = wall, 0 = corridor with a
dot, 2 = ghost-house interior, 3 = power pellet). -/
def MAZE_LAYOUT : List (List Nat) :=
  [ [1, 1, 1, 1, 1, 1, 1, 1, 1, 1, 1, 1, 1, 1, 1, 1, 1, 1, 1, 1, 1, 1, 1, 1, 1, 1, 1, 1],
    [1, 0, 0, 0, 0, 0, 0, 0, 0, 0, 0, 0, 0, 1, 1, 0, 0, 0, 0, 0, 0, 0, 0, 0, 0, 0, 0, 1],
    [1, 0, 1, 1, 1, 1, 0, 1, 1, 1, 1, 1, 0, 1, 1, 0, 1, 1, 1, 1, 1, 0, 1, 1, 1, 1, 0, 1],
    [1, 3, 1, 1, 1, 1, 0, 1, 1, 1, 1, 1, 0, 1, 1, 0, 1, 1, 1, 1, 1, 0, 1, 1, 1, 1, 3, 1],
    [1, 0, 1, 1, 1, 1, 0, 1, 1, 1, 1, 1, 0, 1, 1, 0, 1, 1, 1, 1, 1, 0, 1, 1, 1, 1, 0, 1],
    [1, 0, 0, 0, 0, 0, 0, 0, 0, 0, 0, 0, 0, 0, 0, 0, 0, 0, 0, 0, 0, 0, 0, 0, 0, 0, 0, 1],
    [1, 0, 1, 1, 1, 1, 0, 1, 1, 0, 1, 1, 1, 1, 1, 1, 1, 1, 0, 1, 1, 0, 1, 1, 1, 1, 0, 1],
    [1, 0, 1, 1, 1, 1, 0, 1, 1, 0, 1, 1, 1, 1, 1, 1, 1, 1, 0, 1, 1, 0, 1, 1, 1, 1, 0, 1],
    [1, 0, 0, 0, 0, 0, 0, 1, 1, 0, 0, 0, 0, 1, 1, 0, 0, 0, 0, 1, 1, 0, 0, 0, 0, 0, 0, 1],
    [1, 1, 1, 1, 1, 1, 0, 1, 1, 1, 1, 1, 0, 1, 1, 0, 1, 1, 1, 1, 1, 0, 1, 1, 1, 1, 1, 1],
    [1, 1, 1, 1, 1, 1, 0, 1, 1, 1, 1, 1, 0, 1, 1, 0, 1, 1, 1, 1, 1, 0, 1, 1, 1, 1, 1, 1],
    [1, 1, 1, 1, 1, 1, 0, 1, 1, 0, 0, 0, 0, 0, 0, 0, 0, 0, 0, 1, 1, 0, 1, 1, 1, 1, 1, 1],
    [1, 1, 1, 1, 1, 1, 0, 1, 1, 0, 1, 1, 1, 2, 2, 1, 1, 1, 0, 1, 1, 0, 1, 1, 1, 1, 1, 1],
    [1, 1, 1, 1, 1, 1, 0, 1, 1, 0, 1, 2, 2, 2, 2, 2, 2, 1, 0, 1, 1, 0, 1, 1, 1, 1, 1, 1],
    [0, 0, 0, 0, 0, 0, 0, 0, 0, 0, 1, 2, 2, 2, 2, 2, 2, 1, 0, 0, 0, 0, 0, 0, 0, 0, 0, 0],
    [1, 1, 1, 1, 1, 1, 0, 1, 1, 0, 1, 2, 2, 2, 2, 2, 2, 1, 0, 1, 1, 0, 1, 1, 1, 1, 1, 1],
    [1, 1, 1, 1, 1, 1, 0, 1, 1, 0, 1, 1, 1, 1, 1, 1, 1, 1, 0, 1, 1, 0, 1, 1, 1, 1, 1, 1],
    [1, 1, 1, 1, 1, 1, 0, 1, 1, 0, 0, 0, 0, 0, 0, 0, 0, 0, 0, 1, 1, 0, 1, 1, 1, 1, 1, 1],
    [1, 1, 1, 1, 1, 1, 0, 1, 1, 0, 1, 1, 1, 1, 1, 1, 1, 1, 0, 1, 1, 0, 1, 1, 1, 1, 1, 1],
    [1, 1, 1, 1, 1, 1, 0, 1, 1, 0, 1, 1, 1, 1, 1, 1, 1, 1, 0, 1, 1, 0, 1, 1, 1, 1, 1, 1],
    [1, 0, 0, 0, 0, 0, 0, 0, 0, 0, 0, 0, 0, 1, 1, 0, 0, 0, 0, 0, 0, 0, 0, 0, 0, 0, 0, 1],
    [1, 0, 1, 1, 1, 1, 0, 1, 1, 1, 1, 1, 0, 1, 1, 0, 1, 1, 1, 1, 1, 0, 1, 1, 1, 1, 0, 1],
    [1, 0, 1, 1, 1, 1, 0, 1, 1, 1, 1, 1, 0, 1, 1, 0, 1, 1, 1, 1, 1, 0, 1, 1, 1, 1, 0, 1],
    [1, 3, 0, 0, 1, 1, 0, 0, 0, 0, 0, 0, 0, 0, 0, 0, 0, 0, 0, 0, 0, 0, 1, 1, 0, 0, 3, 1],
    [1, 1, 1, 0, 1, 1, 0, 1, 1, 0, 1, 1, 1, 1, 1, 1, 1, 1, 0, 1, 1, 0, 1, 1, 0, 1, 1, 1],
    [1, 1, 1, 0, 1, 1, 0, 1, 1, 0, 1, 1, 1, 1, 1, 1, 1, 1, 0, 1, 1, 0, 1, 1, 0, 1, 1, 1],
    [1, 0, 0, 0, 0, 0, 0, 1, 1, 0, 0, 0, 0, 1, 1, 0, 0, 0, 0, 1, 1, 0, 0, 0, 0, 0, 0, 1],
    [1, 0, 1, 1, 1, 1, 1, 1, 1, 1, 1, 1, 0, 1, 1, 0, 1, 1, 1, 1, 1, 1, 1, 1, 1, 1, 0, 1],
    [1, 0, 1, 1, 1, 1, 1, 1, 1, 1, 1, 1, 0, 1, 1, 0, 1, 1, 1, 1, 1, 1, 1, 1, 1, 1, 0, 1],
    [1, 0, 0, 0, 0, 0, 0, 0, 0, 0, 0, 0, 0, 0, 0, 0, 0, 0, 0, 0, 0, 0, 0, 0, 0, 0, 0, 1],
    [1, 1, 1, 1, 1, 1, 1, 1, 1, 1, 1, 1, 1, 1, 1, 1, 1, 1, 1, 1, 1, 1, 1, 1, 1, 1, 1, 1] ]

/-- Cell lookup `MAZE_LAYOUT[y][x]`; only consulted after the bounds
checks of the source, so the out-of-range default is irrelevant. -/
def mazeCell (y x : Int) : Nat :=
  (MAZE_LAYOUT.getD y.toNat []).getD x.toNat 1

/-- Horizontal tunnel wraparound:
`if (newX < 0) newX = 27; if (newX > 27) newX = 0`. -/
def wrapX (x : Int) : Int :=
  if x < 0 then 27 else if x > 27 then 0 else x

/-- One candidate step of length 1 in direction `d` from `(x, y)`
(the `switch (player.direction)` / ghost attempted step). -/
def stepPos (d : Dir) (x y : Int) : Int × Int :=
  match d with
  | .up => (x, y - 1)
  | .down => (x, y + 1)
  | .left => (x - 1, y)
  | .right => (x + 1, y)

/-- `updatePlayerDirection(player, input)`: overwrite the pending facing
direction with the first set flag, priority up > down > left > right. -/
def updatePlayerDirection (p : Player) (input : InputFlags) : Player :=
  if input.up then { p with direction := .up }
  else if input.down then { p with direction := .down }
  else if input.left then { p with direction := .left }
  else if input.right then { p with direction := .right }
  else p

/-- `movePlayer(player)`: candidate step, horizontal wraparound, then
commit only when inside bounds and the target cell is not a wall. -/
def movePlayer (p : Player) : Player :=
  let c := stepPos p.direction p.x p.y
  let newX := wrapX c.1
  let newY := c.2
  if 0 ≤ newY ∧ newY < 31 ∧ 0 ≤ newX ∧ newX < 28 ∧ mazeCell newY newX ≠ 1 then
    { p with x := newX, y := newY }
  else
    p

/-- The targeted part of a ghost's move (`moveGhosts` body, given the
chosen target): pick the axis by `|Δx| > |Δy|`, set the facing direction
to the attempted move, wrap horizontally, and commit when inside the
grid bounds (ghosts are not blocked by walls). When no target is chosen
the direction `rnd` supplied by the randomness oracle is attempted. -/
def moveGhostTargeted (g : Ghost) (target : Option Pos) (rnd : Dir) : Ghost :=
  let attempted : Int × Int × Dir :=
    match target with
    | some t =>
      let deltaX := t.x - g.x
      let deltaY := t.y - g.y
      if deltaX.natAbs > deltaY.natAbs then
        if deltaX > 0 then (g.x + 1, g.y, .right) else (g.x - 1, g.y, .left)
      else
        if deltaY > 0 then (g.x, g.y + 1, .down) else (g.x, g.y - 1, .up)
    | none =>
      let c := stepPos rnd g.x g.y
      (c.1, c.2, rnd)
  let newX := wrapX attempted.1
  let newY := attempted.2.1
  let g' := { g with direction := attempted.2.2 }
  if 0 ≤ newX ∧ newX < 28 ∧ 0 ≤ newY ∧ newY < 31 then
    { g' with x := newX, y := newY }
  else
    g'

/-- Per-tick target selection of `moveGhosts` for the ghost of role
`idx`; `rnd30` models the `Math.random() < 0.3` draw of the orange
ghost. -/
def ghostTarget (s : GameState) (idx : Nat) (g : Ghost) (rnd30 : Bool) : Option Pos :=
  if s.powerMode then
    let d1 := (g.x - s.player1.x).natAbs + (g.y - s.player1.y).natAbs
    let d2 := (g.x - s.player2.x).natAbs + (g.y - s.player2.y).natAbs
    if d1 < d2 then
      some ⟨g.x + (g.x - s.player1.x), g.y + (g.y - s.player1.y)⟩
    else
      some ⟨g.x + (g.x - s.player2.x), g.y + (g.y - s.player2.y)⟩
  else if idx = 0 then
    some ⟨s.player1.x, s.player1.y⟩
  else if idx = 1 then
    some ⟨s.player2.x, s.player2.y⟩
  else if idx = 2 then
    if s.player1.score ≥ s.player2.score then
      some ⟨s.player1.x, s.player1.y⟩
    else
      some ⟨s.player2.x, s.player2.y⟩
  else if idx = 3 then
    if rnd30 then
      let d1 := (g.x - s.player1.x).natAbs + (g.y - s.player1.y).natAbs
      let d2 := (g.x - s.player2.x).natAbs + (g.y - s.player2.y).natAbs
      if d1 < d2 then some ⟨s.player1.x, s.player1.y⟩
      else some ⟨s.player2.x, s.player2.y⟩
    else none
  else none

/-- One ghost's full move for a tick: AI target selection, then the
targeted step; `orac idx` supplies the ghost's random draws. -/
def moveGhostOne (s : GameState) (orac : Nat → Bool × Dir) (idx : Nat) (g : Ghost) : Ghost :=
  moveGhostTargeted g (ghostTarget s idx g (orac idx).1) (orac idx).2

/-- The `forEach` of `moveGhosts`, threading the role index. Targets read
only the players and `powerMode`, never other ghosts, so the ghosts move
independently. -/
def moveGhostsAux (s : GameState) (orac : Nat → Bool × Dir) (idx : Nat) :
    List Ghost → List Ghost
  | [] => []
  | g :: gs => moveGhostOne s orac idx g :: moveGhostsAux s orac (idx + 1) gs

/-- `moveGhosts()`. -/
def moveGhosts (orac : Nat → Bool × Dir) (s : GameState) : GameState :=
  { s with ghosts := moveGhostsAux s orac 0 s.ghosts }

/-- `updateInvulnerability()`: clear a player's flag strictly more than
3000 ms after its activation timestamp. -/
def updateInvulnerability (now : Int) (s : GameState) : GameState :=
  let p1 :=
    if s.player1.invulnerable ∧ now - s.player1.invulnerableTime > 3000 then
      { s.player1 with invulnerable := false }
    else s.player1
  let p2 :=
    if s.player2.invulnerable ∧ now - s.player2.invulnerableTime > 3000 then
      { s.player2 with invulnerable := false }
    else s.player2
  { s with player1 := p1, player2 := p2 }

/-- Restore a vulnerable ghost's remembered color on power-mode expiry. -/
def restoreGhostColor (g : Ghost) : Ghost :=
  if g.color = "blue" then
    match g.originalColor with
    | some c => { g with color := c, originalColor := none }
    | none => g
  else g

/-- `updatePowerMode()`: deactivate strictly more than 10000 ms after
activation and restore the ghosts' remembered colors. -/
def updatePowerMode (now : Int) (s : GameState) : GameState :=
  if s.powerMode then
    if now - s.powerModeTime > 10000 then
      { s with powerMode := false, ghosts := s.ghosts.map restoreGhostColor }
    else s
  else s

/-- The dot-collection `filter` of `checkCollisions()`: keep each dot
unless it coincides with a player, awarding +10 to each matching player;
returns the kept dots together with the threaded state. -/
def dotsScan : List Pos → GameState → List Pos × GameState
  | [], s => ([], s)
  | d :: ds, s =>
    if d.x = s.player1.x ∧ d.y = s.player1.y ∨ d.x = s.player2.x ∧ d.y = s.player2.y then
      let s1 :=
        if d.x = s.player1.x ∧ d.y = s.player1.y then
          { s with player1 := { s.player1 with score := s.player1.score + 10 } }
        else s
      let s2 :=
        if d.x = s1.player2.x ∧ d.y = s1.player2.y then
          { s1 with player2 := { s1.player2 with score := s1.player2.score + 10 } }
        else s1
      dotsScan ds s2
    else
      let r := dotsScan ds s
      (d :: r.1, r.2)

/-- The dot-collection phase of `checkCollisions()`. -/
def checkDotCollisions (s : GameState) : GameState :=
  let r := dotsScan s.dots s
  { r.2 with dots := r.1 }

/-- Marking one ghost vulnerable on pellet consumption. -/
def blueGhost (g : Ghost) : Ghost :=
  if g.color ≠ "blue" then { g with originalColor := some g.color, color := "blue" } else g

/-- The power-pellet `filter` of `checkCollisions()`: a consumed pellet
awards +50 to each matching player, activates power mode with timestamp
`now`, and turns every non-blue ghost blue. -/
def pelletsScan (now : Int) : List Pos → GameState → List Pos × GameState
  | [], s => ([], s)
  | d :: ds, s =>
    if d.x = s.player1.x ∧ d.y = s.player1.y ∨ d.x = s.player2.x ∧ d.y = s.player2.y then
      let s1 :=
        if d.x = s.player1.x ∧ d.y = s.player1.y then
          { s with player1 := { s.player1 with score := s.player1.score + 50 } }
        else s
      let s2 :=
        if d.x = s1.player2.x ∧ d.y = s1.player2.y then
          { s1 with player2 := { s1.player2 with score := s1.player2.score + 50 } }
        else s1
      let s3 := { s2 with powerMode := true, powerModeTime := now,
                          ghosts := s2.ghosts.map blueGhost }
      pelletsScan now ds s3
    else
      let r := pelletsScan now ds s
      (d :: r.1, r.2)

/-- The power-pellet phase of `checkCollisions()`. -/
def checkPelletCollisions (now : Int) (s : GameState) : GameState :=
  let r := pelletsScan now s.powerPellets s
  { r.2 with powerPellets := r.1 }

/-- A ghost's fixed home cell, `(13 + idx % 2, 14 + ⌊idx / 2⌋)`. -/
def ghostHomeX (idx : Nat) : Int := 13 + (idx % 2 : Nat)

/-- Vertical coordinate of the home cell of the ghost of role `idx`. -/
def ghostHomeY (idx : Nat) : Int := 14 + (idx / 2 : Nat)

/-- Collision of one ghost with player 1 (`checkCollisions()` ghost
loop, first branch): during power mode the player scores +200 and the
ghost is sent home with its color restored; otherwise a vulnerable-free
hit costs a life, grants 3000 ms invulnerability and respawns the player. -/
def ghostHitP1 (now : Int) (idx : Nat) (g : Ghost) (s : GameState) : Ghost × GameState :=
  if g.x = s.player1.x ∧ g.y = s.player1.y then
    if s.powerMode then
      (⟨ghostHomeX idx, ghostHomeY idx, g.direction,
        (match g.originalColor with | some c => c | none => g.color),
        none⟩,
       { s with player1 := { s.player1 with score := s.player1.score + 200 } })
    else if ¬s.player1.invulnerable then
      (g, { s with player1 := { s.player1 with
              lives := s.player1.lives - 1,
              invulnerable := true,
              invulnerableTime := now,
              x := 1, y := 1, direction := .right } })
    else (g, s)
  else (g, s)

/-- Collision of one ghost with player 2 (second branch; player 2
respawns at `(26, 1)` facing left). -/
def ghostHitP2 (now : Int) (idx : Nat) (g : Ghost) (s : GameState) : Ghost × GameState :=
  if g.x = s.player2.x ∧ g.y = s.player2.y then
    if s.powerMode then
      (⟨ghostHomeX idx, ghostHomeY idx, g.direction,
        (match g.originalColor with | some c => c | none => g.color),
        none⟩,
       { s with player2 := { s.player2 with score := s.player2.score + 200 } })
    else if ¬s.player2.invulnerable then
      (g, { s with player2 := { s.player2 with
              lives := s.player2.lives - 1,
              invulnerable := true,
              invulnerableTime := now,
              x := 26, y := 1, direction := .left } })
    else (g, s)
  else (g, s)

/-- The ghost-collision `forEach` of `checkCollisions()`: for each ghost
in role order, resolve the player-1 collision and then the player-2
collision against the updated ghost and state. -/
def ghostsCollide (now : Int) (idx : Nat) : List Ghost → GameState → List Ghost × GameState
  | [], s => ([], s)
  | g :: gs, s =>
    let r1 := ghostHitP1 now idx g s
    let r2 := ghostHitP2 now idx r1.1 r1.2
    let rest := ghostsCollide now (idx + 1) gs r2.2
    (r2.1 :: rest.1, rest.2)

/-- The ghost-collision phase of `checkCollisions()`. -/
def checkGhostCollisions (now : Int) (s : GameState) : GameState :=
  let r := ghostsCollide now 0 s.ghosts s
  { r.2 with ghosts := r.1 }

/-- `checkCollisions()`: dots, then power pellets, then ghost contacts. -/
def checkCollisions (now : Int) (s : GameState) : GameState :=
  checkGhostCollisions now (checkPelletCollisions now (checkDotCollisions s))

/-- JavaScript `name || fallback` on a display name. -/
def nameOr (n fallback : String) : String :=
  if n = "" then fallback else n

/-- The score-comparison winner used by the first two `checkGameOver()`
checks. -/
def winnerByScore (s : GameState) : Option String :=
  if s.player1.score > s.player2.score then some (nameOr s.player1.name "Player 1")
  else if s.player2.score > s.player1.score then some (nameOr s.player2.name "Player 2")
  else none

/-- First `checkGameOver()` check: all collectibles gone, winner by
score comparison. -/
def checkAllCollected (s : GameState) : GameState :=
  if s.dots.length = 0 ∧ s.powerPellets.length = 0 then
    { s with gameOver := true, winner := winnerByScore s }
  else s

/-- Second `checkGameOver()` check: both players dead, winner by the
same score comparison. -/
def checkBothDead (s : GameState) : GameState :=
  if s.player1.lives ≤ 0 ∧ s.player2.lives ≤ 0 then
    { s with gameOver := true, winner := winnerByScore s }
  else s

/-- Third `checkGameOver()` check: exactly one player dead, the
survivor wins unconditionally. -/
def checkOneDead (s : GameState) : GameState :=
  if s.player1.lives ≤ 0 ∧ s.player2.lives > 0 then
    { s with gameOver := true, winner := some (nameOr s.player2.name "Player 2") }
  else if s.player2.lives ≤ 0 ∧ s.player1.lives > 0 then
    { s with gameOver := true, winner := some (nameOr s.player1.name "Player 1") }
  else s

/-- `checkGameOver()`: the three checks in source order: all collectibles
gone, both players dead, then exactly one player dead. -/
def checkGameOver (s : GameState) : GameState :=
  checkOneDead (checkBothDead (checkAllCollected s))

/-- One body of the `setInterval` game-loop callback: timers, player
moves, ghost moves, collisions, win evaluation. -/
def tick (now : Int) (orac : Nat → Bool × Dir) (s : GameState) : GameState :=
  let s1 := updatePowerMode now (updateInvulnerability now s)
  let s2 := { s1 with player1 := movePlayer s1.player1 }
  let s3 := { s2 with player2 := movePlayer s2.player2 }
  let s4 := moveGhosts orac s3
  checkGameOver (checkCollisions now s4)

/-- All positions of `MAZE_LAYOUT` carrying marker `v`, row-major (the
collectible initialization loops of `resetGameState()`). -/
def collectMarks (v : Nat) : List Pos :=
  (MAZE_LAYOUT.enum.map (fun row =>
    (row.2.enum.filterMap (fun c =>
      if c.2 = v then some (⟨(c.1 : Nat), (row.1 : Nat)⟩ : Pos) else none)))).flatten

/-- `resetGameState()` with the two display names stored afterwards by
the start-game handler. -/
def resetGameState (n1 n2 : String) : GameState :=
  { player1 := ⟨1, 1, .right, 0, 5, false, 0, n1⟩
    player2 := ⟨26, 1, .left, 0, 5, false, 0, n2⟩
    dots := collectMarks 0
    powerPellets := collectMarks 3
    ghosts := [⟨13, 14, .up, "red", none⟩, ⟨14, 14, .up, "pink", none⟩,
               ⟨13, 15, .left, "cyan", none⟩, ⟨14, 15, .right, "orange", none⟩]
    gameOver := false
    winner := none
    powerMode := false
    powerModeTime := 0 }

/-- The `player-input` socket handler: route the intent to the selected
player's pending direction; other indices are ignored. -/
def playerInputOp (player : Nat) (input : InputFlags) (s : GameState) : GameState :=
  if player = 1 then { s with player1 := updatePlayerDirection s.player1 input }
  else if player = 2 then { s with player2 := updatePlayerDirection s.player2 input }
  else s

/-- The `arduino-input` bridge handler: always routed to player 1. -/
def bridgeInputOp (input : InputFlags) (s : GameState) : GameState :=
  { s with player1 := updatePlayerDirection s.player1 input }

/-- ASCII upper-casing of a token, modelling `direction.toUpperCase()`. -/
def jsToUpper (t : String) : String := (t.toList.map Char.toUpper).asString

/-- The single-flag input built by the `switch (direction.toUpperCase())`
of the administrative endpoint. -/
def inputFor (u : String) : InputFlags :=
  if u = "UP" then ⟨true, false, false, false⟩
  else if u = "DOWN" then ⟨false, true, false, false⟩
  else if u = "LEFT" then ⟨false, false, true, false⟩
  else if u = "RIGHT" then ⟨false, false, false, true⟩
  else ⟨false, false, false, false⟩

/-- Outcome of `POST /api/arduino/press`: whether the request succeeded
(`false` = HTTP 400 rejection) and the game state afterwards. -/
structure PressResult where
  success : Bool
  state : GameState
deriving DecidableEq, Repr

/-- The `POST /api/arduino/press` handler: a missing body field or a
token whose upper-casing is not one of UP/DOWN/LEFT/RIGHT is rejected
with status 400 before any state is touched; otherwise the one-flag
input is routed to player 1 via `updatePlayerDirection`. -/
def arduinoPress (direction : Option String) (s : GameState) : PressResult :=
  match direction with
  | none => ⟨false, s⟩
  | some d =>
    let u := jsToUpper d
    if u = "UP" ∨ u = "DOWN" ∨ u = "LEFT" ∨ u = "RIGHT" then
      ⟨true, bridgeInputOp (inputFor u) s⟩
    else ⟨false, s⟩

/-- The game state together with the clock: `loopRunning` models whether
`gameLoopInterval` is a live interval. -/
structure ServerState where
  game : GameState
  loopRunning : Bool
deriving DecidableEq, Repr

/-- One firing opportunity of the clock: `setInterval` only invokes the
callback while the interval is live, and the callback clears the
interval on the tick where `gameOver` holds afterwards. -/
def loopTick (now : Int) (orac : Nat → Bool × Dir) (st : ServerState) : ServerState :=
  if st.loopRunning then
    let g := tick now orac st.game
    { game := g, loopRunning := !g.gameOver }
  else st

/-- A minimal concrete session state used by concrete evaluations. -/
def demoState : GameState :=
  { player1 := ⟨1, 1, .right, 0, 5, false, 0, ""⟩
    player2 := ⟨26, 1, .left, 0, 5, false, 0, ""⟩
    dots := []
    powerPellets := []
    ghosts := []
    gameOver := false
    winner := none
    powerMode := false
    powerModeTime := 0 }

/-- A concrete state in power mode with player 1 standing on the red
ghost's home cell. -/
def demoStatePower : GameState :=
  { demoState with
    player1 := ⟨13, 14, .right, 0, 5, false, 0, ""⟩
    powerMode := true
    powerModeTime := 1000 }

/-- A concrete state whose power mode and player-1 invulnerability were
both activated at timestamp 0, with one vulnerable ghost. -/
def demoStateTimers : GameState :=
  { demoState with
    player1 := ⟨1, 1, .right, 0, 5, true, 0, ""⟩
    ghosts := [⟨13, 14, .up, "blue", some "red"⟩]
    powerMode := true
    powerModeTime := 0 }

/-- Whether a dot coincides with player 1's and/or player 2's position
in state `s` (the removal condition of the dot filter). -/
def dotHitB (s : GameState) (d : Pos) : Bool :=
  decide (d.x = s.player1.x ∧ d.y = s.player1.y) ||
  decide (d.x = s.player2.x ∧ d.y = s.player2.y)

/-- A concrete state with both players on the same dot cell (3,1) and a
second dot elsewhere. -/
def demoStateDots : GameState :=
  { demoState with
    player1 := ⟨3, 1, .right, 0, 5, false, 0, ""⟩
    player2 := ⟨3, 1, .left, 0, 5, false, 0, ""⟩
    dots := [⟨3, 1⟩, ⟨5, 1⟩] }

/-- A committed grid position: column 0..27, row 0..30. -/
def posOK (x y : Int) : Prop :=
  0 ≤ x ∧ x ≤ 27 ∧ 0 ≤ y ∧ y ≤ 30

instance (x y : Int) : Decidable (posOK x y) := by
  unfold posOK
  infer_instance

/-- Both players and every ghost of the session sit on committed
in-bounds positions. -/
def stateInBounds (s : GameState) : Prop :=
  posOK s.player1.x s.player1.y ∧ posOK s.player2.x s.player2.y ∧
  ∀ g ∈ s.ghosts, posOK g.x g.y

instance (s : GameState) : Decidable (stateInBounds s) := by
  unfold stateInBounds
  infer_instance

/-- Two session states agreeing on every component except possibly the
two players' facing directions. -/
def sameExceptDirections (a b : GameState) : Prop :=
  a.player1.x = b.player1.x ∧ a.player1.y = b.player1.y ∧
  a.player1.score = b.player1.score ∧ a.player1.lives = b.player1.lives ∧
  a.player1.invulnerable = b.player1.invulnerable ∧
  a.player1.invulnerableTime = b.player1.invulnerableTime ∧
  a.player1.name = b.player1.name ∧
  a.player2.x = b.player2.x ∧ a.player2.y = b.player2.y ∧
  a.player2.score = b.player2.score ∧ a.player2.lives = b.player2.lives ∧
  a.player2.invulnerable = b.player2.invulnerable ∧
  a.player2.invulnerableTime = b.player2.invulnerableTime ∧
  a.player2.name = b.player2.name ∧
  a.dots = b.dots ∧ a.powerPellets = b.powerPellets ∧ a.ghosts = b.ghosts ∧
  a.gameOver = b.gameOver ∧ a.winner = b.winner ∧
  a.powerMode = b.powerMode ∧ a.powerModeTime = b.powerModeTime

/-- Routing an intent touches nothing but the facing direction. -/
theorem updatePlayerDirection_frame (p : Player) (input : InputFlags) :
    (updatePlayerDirection p input).x = p.x ∧
    (updatePlayerDirection p input).y = p.y ∧
    (updatePlayerDirection p input).score = p.score ∧
    (updatePlayerDirection p input).lives = p.lives ∧
    (updatePlayerDirection p input).invulnerable = p.invulnerable ∧
    (updatePlayerDirection p input).invulnerableTime = p.invulnerableTime ∧
    (updatePlayerDirection p input).name = p.name := by
  unfold updatePlayerDirection
  split_ifs <;> simp

/-- An intent with no set flag leaves the player untouched. -/
theorem updatePlayerDirection_allFalse (p : Player) (input : InputFlags)
    (hu : input.up = false) (hd : input.down = false)
    (hl : input.left = false) (hr : input.right = false) :
    updatePlayerDirection p input = p := by
  unfold updatePlayerDirection
  simp [hu, hd, hl, hr]

/-- C10: applying a direction intent whose four flags are all false is a
no-op: the targeted player and the rest of the session state are
unchanged, whichever route delivered the intent (player input for any
player index, or the bridge). -/
theorem noFlagIntentIsNoOp (p : Player) (input : InputFlags) (s : GameState) (pid : Nat)
    (hu : input.up = false) (hd : input.down = false)
    (hl : input.left = false) (hr : input.right = false) :
    updatePlayerDirection p input = p ∧
    playerInputOp pid input s = s ∧
    bridgeInputOp input s = s := by
  refine ⟨updatePlayerDirection_allFalse p input hu hd hl hr, ?_, ?_⟩
  · unfold playerInputOp
    split_ifs <;> simp [updatePlayerDirection_allFalse _ input hu hd hl hr]
  · unfold bridgeInputOp
    simp [updatePlayerDirection_allFalse _ input hu hd hl hr]

/-- C10 witness: a SELECT-style keypad event maps to the all-false
intent and alters nothing, here checked on a concrete session state. -/
theorem noFlagIntentIsNoOp_witness :
    updatePlayerDirection demoState.player1 ⟨false, false, false, false⟩ = demoState.player1 ∧
    playerInputOp 1 ⟨false, false, false, false⟩ demoState = demoState ∧
    bridgeInputOp ⟨false, false, false, false⟩ demoState = demoState :=
  noFlagIntentIsNoOp demoState.player1 ⟨false, false, false, false⟩ demoState 1
    rfl rfl rfl rfl

/-- C9 (implicit): while power mode is active, ghost–player collision
resolution looks only at the `powerMode` flag — never at the ghost's
color or vulnerability marking — so any ghost sharing a player's cell,
including one already eaten and sitting at its home cell with its
baseline color restored, awards +200 and is teleported home again. -/
theorem poweredContactIgnoresColor (now : Int) (idx : Nat) (g : Ghost) (s : GameState)
    (hpm : s.powerMode = true) :
    (g.x = s.player1.x ∧ g.y = s.player1.y →
       (ghostHitP1 now idx g s).1.x = ghostHomeX idx ∧
       (ghostHitP1 now idx g s).1.y = ghostHomeY idx ∧
       (ghostHitP1 now idx g s).2.player1.score = s.player1.score + 200 ∧
       (ghostHitP1 now idx g s).2.player1.lives = s.player1.lives) ∧
    (g.x = s.player2.x ∧ g.y = s.player2.y →
       (ghostHitP2 now idx g s).1.x = ghostHomeX idx ∧
       (ghostHitP2 now idx g s).1.y = ghostHomeY idx ∧
       (ghostHitP2 now idx g s).2.player2.score = s.player2.score + 200 ∧
       (ghostHitP2 now idx g s).2.player2.lives = s.player2.lives) := by
  constructor
  · rintro ⟨hx, hy⟩
    unfold ghostHitP1
    simp [hx, hy, hpm]
  · rintro ⟨hx, hy⟩
    unfold ghostHitP2
    simp [hx, hy, hpm]

/-- C9 witness: the red ghost already sits at its home cell with its
baseline color restored (no vulnerability marking left), yet a player
standing there during the same power phase is awarded another +200 and
the ghost is teleported home again. -/
theorem poweredContactIgnoresColor_witness :
    (ghostHitP1 5000 0 ⟨13, 14, .up, "red", none⟩ demoStatePower).1.x = ghostHomeX 0 ∧
    (ghostHitP1 5000 0 ⟨13, 14, .up, "red", none⟩ demoStatePower).1.y = ghostHomeY 0 ∧
    (ghostHitP1 5000 0 ⟨13, 14, .up, "red", none⟩ demoStatePower).2.player1.score =
      demoStatePower.player1.score + 200 ∧
    (ghostHitP1 5000 0 ⟨13, 14, .up, "red", none⟩ demoStatePower).2.player1.lives =
      demoStatePower.player1.lives :=
  (poweredContactIgnoresColor 5000 0 ⟨13, 14, .up, "red", none⟩ demoStatePower rfl).1
    ⟨rfl, rfl⟩

/-- C3: whenever exactly one player is out of lives, `checkGameOver`
terminates the match with the surviving player as winner regardless of
the score comparison, because the one-player-dead check runs last and
overwrites whatever the earlier checks decided. -/
theorem oneDeadSurvivorWins (s : GameState) :
    (s.player1.lives ≤ 0 ∧ 0 < s.player2.lives →
       (checkGameOver s).gameOver = true ∧
       (checkGameOver s).winner = some (nameOr s.player2.name "Player 2")) ∧
    (s.player2.lives ≤ 0 ∧ 0 < s.player1.lives →
       (checkGameOver s).gameOver = true ∧
       (checkGameOver s).winner = some (nameOr s.player1.name "Player 1")) := by
  have e1 : ∀ t : GameState, (checkAllCollected t).player1 = t.player1 ∧
      (checkAllCollected t).player2 = t.player2 := by
    intro t; unfold checkAllCollected; split_ifs <;> simp
  have e2 : ∀ t : GameState, (checkBothDead t).player1 = t.player1 ∧
      (checkBothDead t).player2 = t.player2 := by
    intro t; unfold checkBothDead; split_ifs <;> simp
  have ep1 : (checkBothDead (checkAllCollected s)).player1 = s.player1 := by
    rw [(e2 _).1, (e1 _).1]
  have ep2 : (checkBothDead (checkAllCollected s)).player2 = s.player2 := by
    rw [(e2 _).2, (e1 _).2]
  unfold checkGameOver checkOneDead
  rw [ep1, ep2]
  constructor <;> rintro ⟨h1, h2⟩ <;> split_ifs <;> simp_all [ep1, ep2] <;> omega

/-- C3 witness: player 1 is dead with the strictly higher score and both
collectible sets are empty, so the first check would name player 1 by
score — yet the final check overrides it and player 2 wins. -/
theorem oneDeadSurvivorWins_witness :
    (({ demoState with
         player1 := ⟨1, 1, .right, 500, 0, false, 0, ""⟩,
         player2 := ⟨26, 1, .left, 80, 3, false, 0, ""⟩ } : GameState).player1.lives ≤ 0 ∧
     (0 : Int) < ({ demoState with
         player1 := ⟨1, 1, .right, 500, 0, false, 0, ""⟩,
         player2 := ⟨26, 1, .left, 80, 3, false, 0, ""⟩ } : GameState).player2.lives) ∧
    (checkGameOver { demoState with
         player1 := ⟨1, 1, .right, 500, 0, false, 0, ""⟩,
         player2 := ⟨26, 1, .left, 80, 3, false, 0, ""⟩ }).gameOver = true ∧
    (checkGameOver { demoState with
         player1 := ⟨1, 1, .right, 500, 0, false, 0, ""⟩,
         player2 := ⟨26, 1, .left, 80, 3, false, 0, ""⟩ }).winner = some "Player 2" :=
  ⟨⟨by decide, by decide⟩,
   (oneDeadSurvivorWins { demoState with
       player1 := ⟨1, 1, .right, 500, 0, false, 0, ""⟩,
       player2 := ⟨26, 1, .left, 80, 3, false, 0, ""⟩ }).1 ⟨by decide, by decide⟩⟩

/-- C8: the administrative single-shot direction endpoint rejects a
missing direction or any token whose upper-casing is not one of
UP/DOWN/LEFT/RIGHT, leaving the game state untouched, and routes a
valid token to player 1's pending direction exactly like a bridge
input event. -/
theorem pressEndpointValidation (s : GameState) (d : String) :
    (arduinoPress none s = ⟨false, s⟩) ∧
    (jsToUpper d ≠ "UP" → jsToUpper d ≠ "DOWN" → jsToUpper d ≠ "LEFT" →
      jsToUpper d ≠ "RIGHT" → arduinoPress (some d) s = ⟨false, s⟩) ∧
    (jsToUpper d = "UP" ∨ jsToUpper d = "DOWN" ∨ jsToUpper d = "LEFT" ∨
        jsToUpper d = "RIGHT" →
      arduinoPress (some d) s = ⟨true, bridgeInputOp (inputFor (jsToUpper d)) s⟩) := by
  refine ⟨rfl, ?_, ?_⟩
  · intro h1 h2 h3 h4
    unfold arduinoPress
    dsimp only
    split_ifs with h
    · rcases h with h | h | h | h <;> simp_all
    · rfl
  · intro h
    unfold arduinoPress
    dsimp only
    split_ifs
    rfl

/-- C8 witness: the token "select" (unknown button) is rejected and the
state is unchanged, while the lowercase token "down" is accepted and
routed to player 1's pending direction like a bridge event. -/
theorem pressEndpointValidation_witness :
    (jsToUpper "select" ≠ "UP" ∧ jsToUpper "select" ≠ "DOWN" ∧
     jsToUpper "select" ≠ "LEFT" ∧ jsToUpper "select" ≠ "RIGHT") ∧
    arduinoPress (some "select") demoState = ⟨false, demoState⟩ ∧
    (jsToUpper "down" = "DOWN" ∧
     arduinoPress (some "down") demoState =
       ⟨true, bridgeInputOp (inputFor (jsToUpper "down")) demoState⟩) :=
  ⟨⟨by decide, by decide, by decide, by decide⟩,
   (pressEndpointValidation demoState "select").2.1
     (by decide) (by decide) (by decide) (by decide),
   by decide,
   (pressEndpointValidation demoState "down").2.2 (Or.inr (Or.inl (by decide)))⟩

/-- C4 counterexample: the timer comparisons are strict. At
`now − activation` exactly 10000 ms power mode is still active and the
vulnerable ghost still blue, and at exactly 3000 ms the player is still
invulnerable — the claim says both effects are already expired at the
threshold. -/
theorem timerThresholdCex :
    (updatePowerMode 10000 demoStateTimers).powerMode = true ∧
    (updatePowerMode 10000 demoStateTimers).ghosts = [⟨13, 14, .up, "blue", some "red"⟩] ∧
    (updateInvulnerability 3000 demoStateTimers).player1.invulnerable = true := by
  refine ⟨rfl, rfl, rfl⟩

/-- C4 (amended): on the timer phase, power mode stays active exactly
while `now − activation ≤ 10000` and deactivates (restoring every
vulnerable ghost's baseline color) only when `now − activation > 10000`;
a player's invulnerability likewise survives `now − activation ≤ 3000`
and clears only strictly beyond 3000 ms. -/
theorem timerExpiryIsStrict (s : GameState) (now : Int) :
    ((updatePowerMode now s).powerMode =
      (s.powerMode && decide (now - s.powerModeTime ≤ 10000))) ∧
    ((updateInvulnerability now s).player1.invulnerable =
      (s.player1.invulnerable && decide (now - s.player1.invulnerableTime ≤ 3000))) ∧
    ((updateInvulnerability now s).player2.invulnerable =
      (s.player2.invulnerable && decide (now - s.player2.invulnerableTime ≤ 3000))) ∧
    (s.powerMode = true → 10000 < now - s.powerModeTime →
      (updatePowerMode now s).ghosts = s.ghosts.map restoreGhostColor) ∧
    (now - s.powerModeTime ≤ 10000 → (updatePowerMode now s).ghosts = s.ghosts) := by
  unfold updatePowerMode updateInvulnerability
  refine ⟨?_, ?_, ?_, ?_, ?_⟩ <;> try intro h1
  all_goals try intro h2
  all_goals split_ifs <;> simp_all <;> omega

/-- C4 witness: one millisecond past the threshold the power mode phase
restores the vulnerable ghost's baseline color. -/
theorem timerExpiryIsStrict_witness :
    demoStateTimers.powerMode = true ∧
    (10000 : Int) < 10001 - demoStateTimers.powerModeTime ∧
    (updatePowerMode 10001 demoStateTimers).ghosts =
      demoStateTimers.ghosts.map restoreGhostColor :=
  ⟨rfl, by decide,
   (timerExpiryIsStrict demoStateTimers 10001).2.2.2.1 rfl (by decide)⟩

/-- Horizontal wraparound always lands inside the column range. -/
theorem wrapX_bounds (z : Int) : 0 ≤ wrapX z ∧ wrapX z < 28 := by
  unfold wrapX
  split_ifs <;> omega

/-- Wraparound is the identity on in-range columns. -/
theorem wrapX_id (x : Int) (h0 : 0 ≤ x) (h1 : x ≤ 27) : wrapX x = x := by
  unfold wrapX
  split_ifs <;> omega

/-- C1 counterexample: a ghost at (0,0) with target (1,1) has
|Δx| = |Δy| = 1, yet the step taken is vertical — facing "down", moving
to (0,1) — where the claim requires the tie to move horizontally
(facing "right"). -/
theorem ghostTieBreakCex :
    (moveGhostTargeted ⟨0, 0, .up, "red", none⟩ (some ⟨1, 1⟩) .up).direction = Dir.down ∧
    (moveGhostTargeted ⟨0, 0, .up, "red", none⟩ (some ⟨1, 1⟩) .up).x = 0 ∧
    (moveGhostTargeted ⟨0, 0, .up, "red", none⟩ (some ⟨1, 1⟩) .up).y = 1 ∧
    Dir.down ≠ Dir.right :=
  ⟨rfl, rfl, rfl, by decide⟩

/-- C1 (amended): for a ghost with a present target, the step is taken
along the horizontal axis only when |Δx| > |Δy| strictly; when
|Δx| ≤ |Δy| — including ties — the step is vertical. The facing
direction is always set to the attempted move, even when the bounds
check rejects the position change (the vertical position commits only
when the new row is inside 0..30). -/
theorem ghostAxisSelection (g : Ghost) (t : Pos) (rnd : Dir)
    (hx0 : 0 ≤ g.x) (hx1 : g.x ≤ 27) (hy0 : 0 ≤ g.y) (hy1 : g.y ≤ 30) :
    ((t.x - g.x).natAbs > (t.y - g.y).natAbs →
       (moveGhostTargeted g (some t) rnd).direction =
         (if t.x - g.x > 0 then Dir.right else Dir.left) ∧
       (moveGhostTargeted g (some t) rnd).y = g.y ∧
       (moveGhostTargeted g (some t) rnd).x =
         wrapX (if t.x - g.x > 0 then g.x + 1 else g.x - 1)) ∧
    ((t.x - g.x).natAbs ≤ (t.y - g.y).natAbs →
       (moveGhostTargeted g (some t) rnd).direction =
         (if t.y - g.y > 0 then Dir.down else Dir.up) ∧
       (moveGhostTargeted g (some t) rnd).x = g.x ∧
       (moveGhostTargeted g (some t) rnd).y =
         (if t.y - g.y > 0 then (if g.y + 1 < 31 then g.y + 1 else g.y)
          else (if 0 ≤ g.y - 1 then g.y - 1 else g.y))) := by
  constructor
  · intro hcmp
    by_cases hdx : t.x - g.x > 0
    · have e : moveGhostTargeted g (some t) rnd =
          { g with direction := .right, x := wrapX (g.x + 1), y := g.y } := by
        unfold moveGhostTargeted
        dsimp only
        rw [if_pos hcmp, if_pos hdx]
        dsimp only
        rw [if_pos ⟨(wrapX_bounds _).1, (wrapX_bounds _).2, hy0, by omega⟩]
      rw [e, if_pos hdx, if_pos hdx]
      exact ⟨rfl, rfl, rfl⟩
    · have e : moveGhostTargeted g (some t) rnd =
          { g with direction := .left, x := wrapX (g.x - 1), y := g.y } := by
        unfold moveGhostTargeted
        dsimp only
        rw [if_pos hcmp, if_neg hdx]
        dsimp only
        rw [if_pos ⟨(wrapX_bounds _).1, (wrapX_bounds _).2, hy0, by omega⟩]
      rw [e, if_neg hdx, if_neg hdx]
      exact ⟨rfl, rfl, rfl⟩
  · intro hcmp
    have hcmp' : ¬((t.x - g.x).natAbs > (t.y - g.y).natAbs) := by omega
    have hwx : wrapX g.x = g.x := wrapX_id g.x hx0 hx1
    by_cases hdy : t.y - g.y > 0
    · by_cases hcommit : g.y + 1 < 31
      · have e : moveGhostTargeted g (some t) rnd =
            { g with direction := .down, x := g.x, y := g.y + 1 } := by
          unfold moveGhostTargeted
          dsimp only
          rw [if_neg hcmp', if_pos hdy]
          dsimp only
          rw [hwx, if_pos ⟨hx0, by omega, by omega, hcommit⟩]
        rw [e, if_pos hdy, if_pos hdy, if_pos hcommit]
        exact ⟨rfl, rfl, rfl⟩
      · have e : moveGhostTargeted g (some t) rnd =
            { g with direction := .down } := by
          unfold moveGhostTargeted
          dsimp only
          rw [if_neg hcmp', if_pos hdy]
          dsimp only
          rw [hwx, if_neg (by omega : ¬(0 ≤ g.x ∧ g.x < 28 ∧ 0 ≤ g.y + 1 ∧ g.y + 1 < 31))]
        rw [e, if_pos hdy, if_pos hdy, if_neg hcommit]
        exact ⟨rfl, rfl, rfl⟩
    · by_cases hcommit : 0 ≤ g.y - 1
      · have e : moveGhostTargeted g (some t) rnd =
            { g with direction := .up, x := g.x, y := g.y - 1 } := by
          unfold moveGhostTargeted
          dsimp only
          rw [if_neg hcmp', if_neg hdy]
          dsimp only
          rw [hwx, if_pos ⟨hx0, by omega, hcommit, by omega⟩]
        rw [e, if_neg hdy, if_neg hdy, if_pos hcommit]
        exact ⟨rfl, rfl, rfl⟩
      · have e : moveGhostTargeted g (some t) rnd =
            { g with direction := .up } := by
          unfold moveGhostTargeted
          dsimp only
          rw [if_neg hcmp', if_neg hdy]
          dsimp only
          rw [hwx, if_neg (by omega : ¬(0 ≤ g.x ∧ g.x < 28 ∧ 0 ≤ g.y - 1 ∧ g.y - 1 < 31))]
        rw [e, if_neg hdy, if_neg hdy, if_neg hcommit]
        exact ⟨rfl, rfl, rfl⟩

/-- C1 witness: the ghost at the top row attempting an upward flee step
keeps its position (the row −1 is rejected) but its facing direction is
still set to "up"; the deltas here are a tie, so the vertical axis is
selected. -/
theorem ghostAxisSelection_witness :
    ((0 : Int) - 5).natAbs ≤ ((0 : Int) - 5).natAbs ∧
    (moveGhostTargeted ⟨5, 0, .left, "red", none⟩ (some ⟨0, (-5 : Int)⟩) .down).direction = Dir.up ∧
    (moveGhostTargeted ⟨5, 0, .left, "red", none⟩ (some ⟨0, (-5 : Int)⟩) .down).x = 5 ∧
    (moveGhostTargeted ⟨5, 0, .left, "red", none⟩ (some ⟨0, (-5 : Int)⟩) .down).y = 0 := by
  refine ⟨le_refl _, ?_⟩
  have h := (ghostAxisSelection ⟨5, 0, .left, "red", none⟩ ⟨0, (-5 : Int)⟩ .down
    (by decide) (by decide) (by decide) (by decide)).2 (by decide)
  simpa using h

/-- C2 counterexample: a player-direction input applied to a terminal
state still mutates it — player 1's pending facing direction flips from
"right" to "up" even though `gameOver` is true, so the resulting state
differs from the input state. -/
theorem terminalInputMutatesCex :
    ({ demoState with gameOver := true } : GameState).gameOver = true ∧
    playerInputOp 1 ⟨true, false, false, false⟩ { demoState with gameOver := true } ≠
      { demoState with gameOver := true } := by
  exact ⟨rfl, by decide⟩

/-- C2 (amended): once terminal the clock is stopped, so the tick
operation no longer fires and the simulation is not advanced; the
direction-input operations (player input, bridge input, administrative
command), however, are not guarded by the terminal flag — they may still
overwrite a player's pending facing direction, though they change
nothing else of the session state. -/
theorem terminalStopsClockNotInputs (st : ServerState) (now : Int)
    (orac : Nat → Bool × Dir) (input : InputFlags) (pid : Nat) (tok : Option String)
    (hg : st.game.gameOver = true) (hr : st.loopRunning = false) :
    loopTick now orac st = st ∧
    sameExceptDirections (playerInputOp pid input st.game) st.game ∧
    sameExceptDirections (bridgeInputOp input st.game) st.game ∧
    sameExceptDirections (arduinoPress tok st.game).state st.game := by
  have frame : ∀ (g : GameState) (i : InputFlags),
      sameExceptDirections { g with player1 := updatePlayerDirection g.player1 i } g ∧
      sameExceptDirections { g with player2 := updatePlayerDirection g.player2 i } g := by
    intro g i
    have h1 := updatePlayerDirection_frame g.player1 i
    have h2 := updatePlayerDirection_frame g.player2 i
    unfold sameExceptDirections
    obtain ⟨a1, a2, a3, a4, a5, a6, a7⟩ := h1
    obtain ⟨b1, b2, b3, b4, b5, b6, b7⟩ := h2
    exact ⟨⟨a1, a2, a3, a4, a5, a6, a7, rfl, rfl, rfl, rfl, rfl, rfl, rfl,
            rfl, rfl, rfl, rfl, rfl, rfl, rfl⟩,
           ⟨rfl, rfl, rfl, rfl, rfl, rfl, rfl, b1, b2, b3, b4, b5, b6, b7,
            rfl, rfl, rfl, rfl, rfl, rfl, rfl⟩⟩
  have refl_same : ∀ g : GameState, sameExceptDirections g g := by
    intro g
    unfold sameExceptDirections
    exact ⟨rfl, rfl, rfl, rfl, rfl, rfl, rfl, rfl, rfl, rfl, rfl, rfl, rfl, rfl,
           rfl, rfl, rfl, rfl, rfl, rfl, rfl⟩
  refine ⟨?_, ?_, ?_, ?_⟩
  · unfold loopTick
    rw [if_neg (by simp [hr])]
  · unfold playerInputOp
    split_ifs
    · exact (frame st.game input).1
    · exact (frame st.game input).2
    · exact refl_same st.game
  · exact (frame st.game input).1
  · unfold arduinoPress
    match tok with
    | none => exact refl_same st.game
    | some d =>
      dsimp only
      split_ifs
      · exact (frame st.game _).1
      · exact refl_same st.game

/-- C2 witness: on a concrete terminal state with the clock stopped, the
clock opportunity leaves everything unchanged while a concrete "up"
input still only touches the facing direction. -/
theorem terminalStopsClockNotInputs_witness :
    (⟨{ demoState with gameOver := true }, false⟩ : ServerState).game.gameOver = true ∧
    loopTick 0 (fun _ => (false, Dir.up)) ⟨{ demoState with gameOver := true }, false⟩ =
      ⟨{ demoState with gameOver := true }, false⟩ ∧
    sameExceptDirections
      (playerInputOp 1 ⟨true, false, false, false⟩ { demoState with gameOver := true })
      { demoState with gameOver := true } :=
  ⟨rfl,
   (terminalStopsClockNotInputs ⟨{ demoState with gameOver := true }, false⟩ 0
      (fun _ => (false, Dir.up)) ⟨true, false, false, false⟩ 1 none rfl rfl).1,
   (terminalStopsClockNotInputs ⟨{ demoState with gameOver := true }, false⟩ 0
      (fun _ => (false, Dir.up)) ⟨true, false, false, false⟩ 1 none rfl rfl).2.1⟩

/-- C5: a player step commits the wrapped ±1 candidate cell exactly when
the candidate row is inside the vertical bound and the cell is not a
wall; otherwise both the position and the facing direction are left
unchanged (the facing is never modified by movement). -/
theorem playerStepCommit (p : Player) :
    (movePlayer p).direction = p.direction ∧
    (0 ≤ (stepPos p.direction p.x p.y).2 ∧ (stepPos p.direction p.x p.y).2 < 31 ∧
        mazeCell (stepPos p.direction p.x p.y).2 (wrapX (stepPos p.direction p.x p.y).1) ≠ 1 →
      (movePlayer p).x = wrapX (stepPos p.direction p.x p.y).1 ∧
      (movePlayer p).y = (stepPos p.direction p.x p.y).2) ∧
    (¬(0 ≤ (stepPos p.direction p.x p.y).2 ∧ (stepPos p.direction p.x p.y).2 < 31 ∧
        mazeCell (stepPos p.direction p.x p.y).2 (wrapX (stepPos p.direction p.x p.y).1) ≠ 1) →
      movePlayer p = p) := by
  unfold movePlayer
  dsimp only
  split_ifs with h
  · refine ⟨rfl, fun _ => ⟨rfl, rfl⟩, fun hn => absurd ⟨h.1, h.2.1, h.2.2.2.2⟩ hn⟩
  · refine ⟨rfl, fun hc => ?_, fun _ => rfl⟩
    exact absurd ⟨hc.1, hc.2.1, (wrapX_bounds _).1, (wrapX_bounds _).2, hc.2.2⟩ h

/-- C5 witness: player 1 at (1,1) facing "left" attempts (0,1), which is
a wall, and therefore keeps both its position and its facing. -/
theorem playerStepCommit_witness :
    movePlayer ⟨1, 1, .left, 0, 5, false, 0, ""⟩ = ⟨1, 1, .left, 0, 5, false, 0, ""⟩ :=
  (playerStepCommit ⟨1, 1, .left, 0, 5, false, 0, ""⟩).2.2 (by decide)

/-- The dot filter threads the state but only ever touches scores. -/
theorem dotsScan_frame (ds : List Pos) (s : GameState) :
    (dotsScan ds s).2.player1.x = s.player1.x ∧ (dotsScan ds s).2.player1.y = s.player1.y ∧
    (dotsScan ds s).2.player2.x = s.player2.x ∧ (dotsScan ds s).2.player2.y = s.player2.y ∧
    (dotsScan ds s).2.dots = s.dots ∧ (dotsScan ds s).2.powerPellets = s.powerPellets ∧
    (dotsScan ds s).2.ghosts = s.ghosts := by
  induction ds generalizing s with
  | nil => exact ⟨rfl, rfl, rfl, rfl, rfl, rfl, rfl⟩
  | cons d ds ih =>
    unfold dotsScan
    dsimp only
    split_ifs <;> simpa using ih _

/-- The dots kept by the scan are exactly those missing both players. -/
theorem dotsScan_kept (ds : List Pos) (s : GameState) :
    (dotsScan ds s).1 = ds.filter (fun d => !dotHitB s d) := by
  induction ds generalizing s with
  | nil => rfl
  | cons d ds ih =>
    unfold dotsScan
    dsimp only
    by_cases h : d.x = s.player1.x ∧ d.y = s.player1.y ∨ d.x = s.player2.x ∧ d.y = s.player2.y
    · rw [if_pos h]
      have hb : dotHitB s d = true := by
        unfold dotHitB
        rcases h with h | h <;> simp [h]
      rw [List.filter_cons]
      simp only [hb, Bool.not_true, Bool.false_eq_true, if_false]
      split_ifs <;> rw [ih] <;> try (unfold dotHitB; simp)
    · rw [if_neg h]
      have hb : dotHitB s d = false := by
        unfold dotHitB
        push_neg at h
        by_cases h1 : d.x = s.player1.x ∧ d.y = s.player1.y
        · exact absurd h1 (by tauto)
        · by_cases h2 : d.x = s.player2.x ∧ d.y = s.player2.y
          · exact absurd h2 (by tauto)
          · simp [h1, h2]
      rw [List.filter_cons]
      simp only [hb, Bool.not_false, if_true]
      rw [ih]

/-- Each dot matching player 1 awards +10 to player 1, independently of
player 2. -/
theorem dotsScan_score1 (ds : List Pos) (s : GameState) :
    (dotsScan ds s).2.player1.score =
      s.player1.score +
        10 * ds.countP (fun d => decide (d.x = s.player1.x ∧ d.y = s.player1.y)) := by
  induction ds generalizing s with
  | nil => rfl
  | cons d ds ih =>
    unfold dotsScan
    dsimp only
    rw [List.countP_cons]
    split_ifs <;> simp_all [ih] <;> omega

/-- Each dot matching player 2 awards +10 to player 2, independently of
player 1. -/
theorem dotsScan_score2 (ds : List Pos) (s : GameState) :
    (dotsScan ds s).2.player2.score =
      s.player2.score +
        10 * ds.countP (fun d => decide (d.x = s.player2.x ∧ d.y = s.player2.y)) := by
  induction ds generalizing s with
  | nil => rfl
  | cons d ds ih =>
    unfold dotsScan
    dsimp only
    rw [List.countP_cons]
    split_ifs <;> simp_all [ih] <;> omega

/-- The pellet filter never touches the dot set. -/
theorem pelletsScan_dots (now : Int) (ps : List Pos) (s : GameState) :
    (pelletsScan now ps s).2.dots = s.dots := by
  induction ps generalizing s with
  | nil => rfl
  | cons d ds ih =>
    unfold pelletsScan
    dsimp only
    split_ifs <;> simpa using ih _

/-- A single ghost–player-1 collision never touches the dot set. -/
theorem ghostHitP1_dots (now : Int) (idx : Nat) (g : Ghost) (s : GameState) :
    (ghostHitP1 now idx g s).2.dots = s.dots := by
  unfold ghostHitP1
  split_ifs <;> rfl

/-- A single ghost–player-2 collision never touches the dot set. -/
theorem ghostHitP2_dots (now : Int) (idx : Nat) (g : Ghost) (s : GameState) :
    (ghostHitP2 now idx g s).2.dots = s.dots := by
  unfold ghostHitP2
  split_ifs <;> rfl

/-- The ghost-collision loop never touches the dot set. -/
theorem ghostsCollide_dots (now : Int) (idx : Nat) (gs : List Ghost) (s : GameState) :
    (ghostsCollide now idx gs s).2.dots = s.dots := by
  induction gs generalizing idx s with
  | nil => rfl
  | cons g gs ih =>
    unfold ghostsCollide
    dsimp only
    rw [ih, ghostHitP2_dots, ghostHitP1_dots]

/-- Collision resolution leaves the dots produced by the dot phase. -/
theorem checkCollisions_dots (now : Int) (s : GameState) :
    (checkCollisions now s).dots = (checkDotCollisions s).dots := by
  unfold checkCollisions checkGhostCollisions checkPelletCollisions
  dsimp only
  rw [ghostsCollide_dots, pelletsScan_dots]

/-- A Nodup list of positions all equal to one of two values has at most
two elements. -/
theorem nodupTwoValuesShort (l : List Pos) (a b : Pos) (hnd : l.Nodup)
    (h : ∀ x ∈ l, x = a ∨ x = b) : l.length ≤ 2 := by
  have hsub : l.toFinset ⊆ {a, b} := by
    intro x hx
    simp only [List.mem_toFinset] at hx
    rcases h x hx with rfl | rfl <;> simp
  calc l.length = l.toFinset.card := (List.toFinset_card_of_nodup hnd).symm
  _ ≤ ({a, b} : Finset Pos).card := Finset.card_le_card hsub
  _ ≤ 2 := Finset.card_le_two

/-- C7: on a tick, collision resolution only ever removes dots (the dot
set after it is a subset of the dot set before), removes at most two of
them when the dot set holds no duplicates, awards +10 per matching dot
to each matching player independently (so one shared cell pays both),
and removes every dot hit by a player. -/
theorem dotsShrinkBounded (s : GameState) (now : Int) (hnd : s.dots.Nodup) :
    (∀ d, d ∈ (checkCollisions now s).dots → d ∈ s.dots) ∧
    s.dots.length ≤ (checkCollisions now s).dots.length + 2 ∧
    (checkDotCollisions s).player1.score =
      s.player1.score +
        10 * s.dots.countP (fun d => decide (d.x = s.player1.x ∧ d.y = s.player1.y)) ∧
    (checkDotCollisions s).player2.score =
      s.player2.score +
        10 * s.dots.countP (fun d => decide (d.x = s.player2.x ∧ d.y = s.player2.y)) ∧
    (∀ d, dotHitB s d = true → d ∉ (checkCollisions now s).dots) := by
  have hdots : (checkCollisions now s).dots = s.dots.filter (fun d => !dotHitB s d) := by
    rw [checkCollisions_dots]
    unfold checkDotCollisions
    dsimp only
    rw [dotsScan_kept]
  refine ⟨?_, ?_, ?_, ?_, ?_⟩
  · intro d hd
    rw [hdots] at hd
    exact List.mem_of_mem_filter hd
  · rw [hdots]
    have hsplit := List.length_eq_length_filter_add (l := s.dots) (dotHitB s)
    have hhits : (s.dots.filter (dotHitB s)).length ≤ 2 := by
      refine nodupTwoValuesShort _ ⟨s.player1.x, s.player1.y⟩ ⟨s.player2.x, s.player2.y⟩
        (hnd.filter _) ?_
      intro x hx
      have hb : dotHitB s x = true := List.of_mem_filter hx
      unfold dotHitB at hb
      simp only [Bool.or_eq_true, decide_eq_true_eq] at hb
      rcases hb with ⟨h1, h2⟩ | ⟨h1, h2⟩
      · left
        cases x
        simp_all
      · right
        cases x
        simp_all
    omega
  · unfold checkDotCollisions
    dsimp only
    rw [dotsScan_score1]
  · unfold checkDotCollisions
    dsimp only
    rw [dotsScan_score2]
  · intro d hb
    rw [hdots]
    simp [List.mem_filter, hb]

/-- C7 witness: both players stand on the shared dot (3,1); the dot is
removed once, each player is awarded +10, and at most two dots
disappear from the Nodup dot list. -/
theorem dotsShrinkBounded_witness :
    demoStateDots.dots.Nodup ∧
    demoStateDots.dots.length ≤ (checkCollisions 0 demoStateDots).dots.length + 2 ∧
    (checkDotCollisions demoStateDots).player1.score = 10 ∧
    (checkDotCollisions demoStateDots).player2.score = 10 ∧
    (⟨3, 1⟩ : Pos) ∉ (checkCollisions 0 demoStateDots).dots :=
  ⟨by decide,
   (dotsShrinkBounded demoStateDots 0 (by decide)).2.1,
   by decide,
   by decide,
   (dotsShrinkBounded demoStateDots 0 (by decide)).2.2.2.2 ⟨3, 1⟩ (by decide)⟩

/-- A committed player step stays inside the grid bounds. -/
theorem movePlayer_posOK (p : Player) (h : posOK p.x p.y) :
    posOK (movePlayer p).x (movePlayer p).y := by
  unfold movePlayer
  dsimp only
  unfold posOK at h ⊢
  split_ifs with hc
  · dsimp only
    omega
  · exact h

/-- A ghost step (targeted or random) stays inside the grid bounds. -/
theorem moveGhostTargeted_posOK (g : Ghost) (t : Option Pos) (rnd : Dir)
    (h : posOK g.x g.y) :
    posOK (moveGhostTargeted g t rnd).x (moveGhostTargeted g t rnd).y := by
  unfold moveGhostTargeted
  dsimp only
  unfold posOK at h ⊢
  split_ifs with hc
  · dsimp only
    omega
  · dsimp only
    exact h

/-- The ghost-move loop keeps every ghost inside the grid bounds and
preserves the number of ghosts. -/
theorem moveGhostsAux_posOK (s : GameState) (orac : Nat → Bool × Dir) (idx : Nat)
    (gs : List Ghost) (h : ∀ g ∈ gs, posOK g.x g.y) :
    (∀ g' ∈ moveGhostsAux s orac idx gs, posOK g'.x g'.y) ∧
    (moveGhostsAux s orac idx gs).length = gs.length := by
  induction gs generalizing idx with
  | nil =>
    refine ⟨?_, rfl⟩
    intro g' hg'
    cases hg' 
  | cons g gs ih =>
    unfold moveGhostsAux
    constructor
    · intro g' hg'
      rcases List.mem_cons.1 hg' with rfl | hmem
      · exact moveGhostTargeted_posOK g _ _ (h g (List.mem_cons_self g gs))
      · exact (ih (idx + 1) (fun x hx => h x (List.mem_cons_of_mem g hx))).1 g' hmem
    · simpa using (ih (idx + 1) (fun x hx => h x (List.mem_cons_of_mem g hx))).2

/-- The invulnerability timer phase never moves anyone. -/
theorem updateInvulnerability_bounds (now : Int) (s : GameState)
    (h : stateInBounds s) : stateInBounds (updateInvulnerability now s) ∧
    (updateInvulnerability now s).ghosts.length = s.ghosts.length := by
  obtain ⟨h1, h2, hg⟩ := h
  unfold updateInvulnerability
  dsimp only
  unfold posOK at *
  split_ifs <;> exact ⟨⟨h1, h2, hg⟩, rfl⟩

/-- Restoring a ghost's baseline color never moves it. -/
theorem restoreGhostColor_pos (g : Ghost) :
    (restoreGhostColor g).x = g.x ∧ (restoreGhostColor g).y = g.y := by
  unfold restoreGhostColor
  split_ifs
  · cases g.originalColor <;> exact ⟨rfl, rfl⟩
  · exact ⟨rfl, rfl⟩

/-- The power-mode timer phase never moves anyone. -/
theorem updatePowerMode_bounds (now : Int) (s : GameState)
    (h : stateInBounds s) : stateInBounds (updatePowerMode now s) ∧
    (updatePowerMode now s).ghosts.length = s.ghosts.length := by
  obtain ⟨h1, h2, hg⟩ := h
  unfold updatePowerMode
  split_ifs
  · refine ⟨⟨h1, h2, ?_⟩, by simp⟩
    intro g' hg'
    obtain ⟨g, hmem, rfl⟩ := List.mem_map.1 hg'
    have e := restoreGhostColor_pos g
    unfold posOK
    rw [e.1, e.2]
    exact hg g hmem
  · exact ⟨⟨h1, h2, hg⟩, rfl⟩
  · exact ⟨⟨h1, h2, hg⟩, rfl⟩

/-- Marking a ghost vulnerable never moves it. -/
theorem blueGhost_pos (g : Ghost) :
    (blueGhost g).x = g.x ∧ (blueGhost g).y = g.y := by
  unfold blueGhost
  split_ifs <;> exact ⟨rfl, rfl⟩

/-- The dot phase never moves anyone and keeps the ghost count. -/
theorem checkDotCollisions_bounds (s : GameState) (h : stateInBounds s) :
    stateInBounds (checkDotCollisions s) ∧
    (checkDotCollisions s).ghosts.length = s.ghosts.length := by
  obtain ⟨h1, h2, hg⟩ := h
  obtain ⟨e1, e2, e3, e4, _, _, e7⟩ := dotsScan_frame s.dots s
  unfold checkDotCollisions
  dsimp only
  unfold stateInBounds posOK at *
  rw [e1, e2, e3, e4, e7]
  exact ⟨⟨h1, h2, hg⟩, rfl⟩

/-- The pellet filter never moves anyone and keeps the ghost count. -/
theorem pelletsScan_bounds (now : Int) (ps : List Pos) (s : GameState)
    (h : stateInBounds s) : stateInBounds (pelletsScan now ps s).2 ∧
    (pelletsScan now ps s).2.ghosts.length = s.ghosts.length := by
  induction ps generalizing s with
  | nil => exact ⟨h, rfl⟩
  | cons d ds ih =>
    obtain ⟨h1, h2, hg⟩ := h
    unfold pelletsScan
    dsimp only
    split_ifs with hhit hp1 hp2 hp2
    all_goals (
      refine (ih _ ⟨?_, ?_, ?_⟩).imp id (fun hlen => by simpa using hlen) <;>
        try assumption)
    all_goals (
      intro g' hg'
      first
        | exact hg g' hg'
        | (obtain ⟨g, hmem, rfl⟩ := List.mem_map.1 hg'
           have e := blueGhost_pos g
           unfold posOK
           rw [e.1, e.2]
           exact hg g hmem))

/-- Resolving one ghost–player-1 contact keeps the ghost and both
players in bounds (the home cell of roles 0..3 is in bounds) and leaves
the threaded ghost list untouched. -/
theorem ghostHitP1_ok (now : Int) (idx : Nat) (g : Ghost) (s : GameState)
    (hidx : idx ≤ 3) (hg : posOK g.x g.y)
    (h1 : posOK s.player1.x s.player1.y) (h2 : posOK s.player2.x s.player2.y) :
    posOK (ghostHitP1 now idx g s).1.x (ghostHitP1 now idx g s).1.y ∧
    posOK (ghostHitP1 now idx g s).2.player1.x (ghostHitP1 now idx g s).2.player1.y ∧
    posOK (ghostHitP1 now idx g s).2.player2.x (ghostHitP1 now idx g s).2.player2.y ∧
    (ghostHitP1 now idx g s).2.ghosts = s.ghosts := by
  unfold ghostHitP1 ghostHomeX ghostHomeY
  unfold posOK at *
  split_ifs <;> refine ⟨?_, ?_, ?_, rfl⟩ <;> dsimp only <;> omega

/-- Resolving one ghost–player-2 contact keeps everyone in bounds. -/
theorem ghostHitP2_ok (now : Int) (idx : Nat) (g : Ghost) (s : GameState)
    (hidx : idx ≤ 3) (hg : posOK g.x g.y)
    (h1 : posOK s.player1.x s.player1.y) (h2 : posOK s.player2.x s.player2.y) :
    posOK (ghostHitP2 now idx g s).1.x (ghostHitP2 now idx g s).1.y ∧
    posOK (ghostHitP2 now idx g s).2.player1.x (ghostHitP2 now idx g s).2.player1.y ∧
    posOK (ghostHitP2 now idx g s).2.player2.x (ghostHitP2 now idx g s).2.player2.y ∧
    (ghostHitP2 now idx g s).2.ghosts = s.ghosts := by
  unfold ghostHitP2 ghostHomeX ghostHomeY
  unfold posOK at *
  split_ifs <;> refine ⟨?_, ?_, ?_, rfl⟩ <;> dsimp only <;> omega

/-- The ghost-collision loop keeps every rebuilt ghost and both players
in bounds, preserves the ghost count, and leaves the threaded ghost
list untouched. -/
theorem ghostsCollide_ok (now : Int) (idx : Nat) (gs : List Ghost) (s : GameState)
    (hidx : idx + gs.length ≤ 4)
    (hgs : ∀ g ∈ gs, posOK g.x g.y)
    (h1 : posOK s.player1.x s.player1.y) (h2 : posOK s.player2.x s.player2.y) :
    (∀ g' ∈ (ghostsCollide now idx gs s).1, posOK g'.x g'.y) ∧
    posOK (ghostsCollide now idx gs s).2.player1.x (ghostsCollide now idx gs s).2.player1.y ∧
    posOK (ghostsCollide now idx gs s).2.player2.x (ghostsCollide now idx gs s).2.player2.y ∧
    (ghostsCollide now idx gs s).2.ghosts = s.ghosts ∧
    (ghostsCollide now idx gs s).1.length = gs.length := by
  induction gs generalizing idx s with
  | nil =>
    refine ⟨?_, h1, h2, rfl, rfl⟩
    intro g' hg'
    cases hg'
  | cons g gs ih =>
    have hidx3 : idx ≤ 3 := by
      have := gs.length
      simp only [List.length_cons] at hidx
      omega
    have hghead : posOK g.x g.y := hgs g (List.mem_cons_self g gs)
    obtain ⟨a1, a2, a3, a4⟩ := ghostHitP1_ok now idx g s hidx3 hghead h1 h2
    obtain ⟨b1, b2, b3, b4⟩ :=
      ghostHitP2_ok now idx (ghostHitP1 now idx g s).1 (ghostHitP1 now idx g s).2
        hidx3 a1 a2 a3
    have hrest := ih (idx + 1)
      (ghostHitP2 now idx (ghostHitP1 now idx g s).1 (ghostHitP1 now idx g s).2).2
      (by simp only [List.length_cons] at hidx; omega)
      (fun x hx => hgs x (List.mem_cons_of_mem g hx)) b2 b3
    obtain ⟨c1, c2, c3, c4, c5⟩ := hrest
    unfold ghostsCollide
    dsimp only
    refine ⟨?_, c2, c3, by rw [c4, b4, a4], by simpa using c5⟩
    intro g' hg'
    rcases List.mem_cons.1 hg' with rfl | hmem
    · exact b1
    · exact c1 g' hmem

/-- Full collision resolution preserves the bounds invariant and the
ghost count. -/
theorem checkCollisions_bounds (now : Int) (s : GameState)
    (h : stateInBounds s) (hlen : s.ghosts.length = 4) :
    stateInBounds (checkCollisions now s) ∧
    (checkCollisions now s).ghosts.length = 4 := by
  obtain ⟨hd, hdlen⟩ := checkDotCollisions_bounds s h
  have hdglen : (checkDotCollisions s).ghosts.length = 4 := by rw [hdlen, hlen]
  obtain ⟨hp, hplen⟩ := pelletsScan_bounds now (checkDotCollisions s).powerPellets
    (checkDotCollisions s) hd
  set s2 := checkPelletCollisions now (checkDotCollisions s) with hs2
  have hp2 : stateInBounds s2 ∧ s2.ghosts.length = 4 := by
    rw [hs2]
    unfold checkPelletCollisions
    dsimp only
    obtain ⟨q1, q2, q3⟩ := hp
    exact ⟨⟨q1, q2, q3⟩, by rw [hplen, hdglen]⟩
  obtain ⟨⟨r1, r2, r3⟩, rlen⟩ := hp2
  have hcoll := ghostsCollide_ok now 0 s2.ghosts s2 (by omega) r3 r1 r2
  obtain ⟨c1, c2, c3, _, c5⟩ := hcoll
  unfold checkCollisions
  rw [← hs2]
  unfold checkGhostCollisions
  dsimp only
  exact ⟨⟨c2, c3, c1⟩, by rw [c5, rlen]⟩

/-- Win evaluation never moves anyone nor changes the ghosts. -/
theorem checkGameOver_frame (s : GameState) :
    (checkGameOver s).player1.x = s.player1.x ∧
    (checkGameOver s).player1.y = s.player1.y ∧
    (checkGameOver s).player2.x = s.player2.x ∧
    (checkGameOver s).player2.y = s.player2.y ∧
    (checkGameOver s).ghosts = s.ghosts := by
  unfold checkGameOver checkOneDead checkBothDead checkAllCollected
  split_ifs <;> exact ⟨rfl, rfl, rfl, rfl, rfl⟩

/-- One full tick preserves the bounds invariant and the ghost count. -/
theorem tick_bounds (now : Int) (orac : Nat → Bool × Dir) (s : GameState)
    (h : stateInBounds s) (hlen : s.ghosts.length = 4) :
    stateInBounds (tick now orac s) ∧ (tick now orac s).ghosts.length = 4 := by
  obtain ⟨hi, hilen⟩ := updateInvulnerability_bounds now s h
  obtain ⟨hpm, hpmlen⟩ := updatePowerMode_bounds now (updateInvulnerability now s) hi
  set s1 := updatePowerMode now (updateInvulnerability now s) with hs1
  have hs1len : s1.ghosts.length = 4 := by rw [hs1, hpmlen, hilen, hlen]
  obtain ⟨p1a, p1b, p1c⟩ := hpm
  have h2 : stateInBounds { s1 with player1 := movePlayer s1.player1 } ∧
      ({ s1 with player1 := movePlayer s1.player1 } : GameState).ghosts.length = 4 :=
    ⟨⟨movePlayer_posOK s1.player1 p1a, p1b, p1c⟩, hs1len⟩
  set s2 := { s1 with player1 := movePlayer s1.player1 } with hs2def
  obtain ⟨⟨q1, q2, q3⟩, qlen⟩ := h2
  have h3 : stateInBounds { s2 with player2 := movePlayer s2.player2 } ∧
      ({ s2 with player2 := movePlayer s2.player2 } : GameState).ghosts.length = 4 :=
    ⟨⟨q1, movePlayer_posOK s2.player2 q2, q3⟩, qlen⟩
  set s3 := { s2 with player2 := movePlayer s2.player2 } with hs3def
  obtain ⟨⟨w1, w2, w3⟩, wlen⟩ := h3
  have h4 : stateInBounds (moveGhosts orac s3) ∧
      (moveGhosts orac s3).ghosts.length = 4 := by
    unfold moveGhosts
    obtain ⟨m1, m2⟩ := moveGhostsAux_posOK s3 orac 0 s3.ghosts w3
    exact ⟨⟨w1, w2, m1⟩, by rw [m2, wlen]⟩
  obtain ⟨h4b, h4len⟩ := checkCollisions_bounds now (moveGhosts orac s3) h4.1 h4.2
  have hfinal := checkGameOver_frame (checkCollisions now (moveGhosts orac s3))
  obtain ⟨f1, f2, f3, f4, f5⟩ := hfinal
  obtain ⟨g1, g2, g3⟩ := h4b
  have etick : tick now orac s =
      checkGameOver (checkCollisions now (moveGhosts orac s3)) := by
    rw [hs3def, hs2def, hs1]
    rfl
  rw [etick]
  constructor
  · unfold stateInBounds
    refine ⟨?_, ?_, ?_⟩
    · unfold posOK at g1 ⊢
      rw [f1, f2]
      exact g1
    · unfold posOK at g2 ⊢
      rw [f3, f4]
      exact g2
    · rw [f5]
      exact g3
  · rw [f5]
    exact h4len

/-- C6: the freshly reset session is in bounds with its four ghosts, a
full tick — any targets, any random draws — keeps both players and all
four ghosts inside 0 ≤ x ≤ 27, 0 ≤ y ≤ 30 through movement, wraparound,
teleports and respawns, and the horizontal wraparound maps x < 0 to 27
and x > 27 to 0 and nothing else (there is no vertical counterpart in
the embedding, as in the code). -/
theorem positionsAlwaysInBounds :
    (∀ n1 n2 : String, stateInBounds (resetGameState n1 n2) ∧
       (resetGameState n1 n2).ghosts.length = 4) ∧
    (∀ (s : GameState) (now : Int) (orac : Nat → Bool × Dir),
       stateInBounds s → s.ghosts.length = 4 →
       stateInBounds (tick now orac s) ∧ (tick now orac s).ghosts.length = 4) ∧
    (∀ x : Int, (x < 0 → wrapX x = 27) ∧ (27 < x → wrapX x = 0) ∧
       (0 ≤ x → x ≤ 27 → wrapX x = x)) := by
  refine ⟨?_, ?_, ?_⟩
  · intro n1 n2
    refine ⟨?_, rfl⟩
    unfold resetGameState stateInBounds posOK
    refine ⟨by norm_num, by norm_num, ?_⟩
    intro g hg
    simp only [List.mem_cons, List.not_mem_nil, or_false] at hg
    rcases hg with rfl | rfl | rfl | rfl <;> norm_num
  · exact fun s now orac h hlen => tick_bounds now orac s h hlen
  · intro x
    unfold wrapX
    refine ⟨fun h => ?_, fun h => ?_, fun h1 h2 => ?_⟩ <;> split_ifs <;> omega

/-- C6 witness: a reset session and one concrete subsequent tick are in
bounds. -/
theorem positionsAlwaysInBounds_witness :
    stateInBounds (resetGameState "Alice" "Bob") ∧
    stateInBounds (tick 150 (fun _ => (false, Dir.up)) (resetGameState "Alice" "Bob")) :=
  ⟨(positionsAlwaysInBounds.1 "Alice" "Bob").1,
   (positionsAlwaysInBounds.2.1 (resetGameState "Alice" "Bob") 150
      (fun _ => (false, Dir.up))
      (positionsAlwaysInBounds.1 "Alice" "Bob").1
      (positionsAlwaysInBounds.1 "Alice" "Bob").2).1⟩

set_option maxHeartbeats 4000000 in
set_option maxRecDepth 100000 in
/-- The freshly initialized dot set holds no duplicate positions; with
the next lemma, the Nodup hypothesis of the dot-phase theorem holds in
every reachable session state. -/
theorem resetGameState_dots_nodup (n1 n2 : String) :
    (resetGameState n1 n2).dots.Nodup := by
  show (collectMarks 0).Nodup
  decide

/-- Collision resolution preserves the no-duplicates property of the
dot set (it only filters the list). -/
theorem checkCollisions_dots_nodup (now : Int) (s : GameState)
    (h : s.dots.Nodup) : (checkCollisions now s).dots.Nodup := by
  have e : (checkCollisions now s).dots = s.dots.filter (fun d => !dotHitB s d) := by
    rw [checkCollisions_dots]
    unfold checkDotCollisions
    dsimp only
    rw [dotsScan_kept]
  rw [e]
  exact h.filter _
